import Mathlib

set_option maxRecDepth 8000

/-!
Shallow embedding of the NLP analysis service in `python-nlp/main.py` of the
AI-context-gap-tracker repository, together with theorems settling the frozen
claims about it.

Modelling conventions:
- Python floats are modelled as rationals; the numeric literals of the source
  (0.05, 0.6, 0.7, 0.8, durations) are exact in both settings.
- The external toolkit capabilities (the spaCy pipeline, the NLTK sentiment
  lexicon) and the Redis client are external boundaries: their per-request
  outputs, availability flags, and failure behaviour are fields of an
  environment record `NlpEnv`; the deterministic code of the service that
  consumes those outputs is embedded directly from the source.
- The NLTK tokenizers `sent_tokenize` and `word_tokenize` are modelled by
  simple deterministic splitters (sentence-final punctuation, whitespace and
  punctuation tokens); the claims that depend on them either hold for any
  total tokenizer or concern inputs on which the model agrees with punkt
  (a single terminal full stop).
- A raised `HTTPException` or any other Python exception is modelled with
  `Except`; FastAPI route handlers become functions into `Except HTTPException`.
-/

namespace NlpService

/-! ### Character and string models (Python `lower`, `strip`, `in`, `re.search`) -/

/-- ASCII whitespace, as recognised by Python `str.strip`/`str.split` on the
inputs that occur here. -/
def isSpace (c : Char) : Bool :=
  c = ' ' || c = '\t' || c = '\n' || c = '\r'

/-- ASCII lowercasing of one character; model of Python `str.lower` per char. -/
def lowerChar (c : Char) : Char :=
  if 'A' ≤ c ∧ c ≤ 'Z' then Char.ofNat (c.toNat + 32) else c

/-- Model of Python `str.lower` (ASCII inputs). -/
def lowerString (s : String) : String :=
  String.mk (s.data.map lowerChar)

/-- Model of Python `str.strip`: drop leading and trailing whitespace. -/
def stripStr (s : String) : String :=
  String.mk (((s.data.dropWhile isSpace).reverse.dropWhile isSpace).reverse)

/-- Does `needle` occur as a contiguous run inside `hay`?  Model of the Python
substring test `needle in hay`. -/
def containsSub (needle : List Char) : List Char → Bool
  | [] => needle.isEmpty
  | c :: rest => needle.isPrefixOf (c :: rest) || containsSub needle rest

/-- Python `needle in hay` on strings. -/
def strContains (hay needle : String) : Bool :=
  containsSub needle.data hay.data

/-- Word character of the regex `\w` class (ASCII fragment). -/
def isWordChar (c : Char) : Bool :=
  ('a' ≤ c && c ≤ 'z') || ('A' ≤ c && c ≤ 'Z') || ('0' ≤ c && c ≤ '9') || c = '_'

/-- The character to the left of a candidate match position permits a `\b`
boundary (for a term whose first character is a word character). -/
def leftBoundary : Option Char → Bool
  | none => true
  | some c => !isWordChar c

/-- The remainder after a candidate match permits a `\b` boundary (for a term
whose last character is a word character). -/
def rightBoundary : List Char → Bool
  | [] => true
  | c :: _ => !isWordChar c

/-- `term` matches at the head of `hay` and is followed by a `\b` boundary. -/
def matchHere (term hay : List Char) : Bool :=
  term.isPrefixOf hay && rightBoundary (hay.drop term.length)

/-- Scan of `hay` for a `\b term \b` match, carrying the previous character for
the left boundary test. -/
def wordSearchFrom (term : List Char) : Option Char → List Char → Bool
  | prev, [] => leftBoundary prev && matchHere term []
  | prev, c :: rest =>
    (leftBoundary prev && matchHere term (c :: rest)) || wordSearchFrom term (some c) rest

/-- Model of `re.search(r'\b' + term + r'\b', text) is not None`, valid for the
fixed rule terms of the source, all of which begin and end with word
characters. -/
def reWordSearch (term text : String) : Bool :=
  wordSearchFrom term.data none text.data

/-- Sentence splitter: model of `nltk.sent_tokenize`.  A sentence ends at
`.`, `!` or `?` (kept with the sentence); whitespace between sentences is
dropped; a trailing fragment without terminal punctuation is its own
sentence. -/
def sentSplit : List Char → List Char → List String
  | [], acc => if acc.isEmpty then [] else [String.mk acc.reverse]
  | c :: rest, acc =>
    if c = '.' || c = '!' || c = '?' then
      String.mk (acc.reverse ++ [c]) :: sentSplit rest []
    else if isSpace c && acc.isEmpty then
      sentSplit rest []
    else
      sentSplit rest (c :: acc)

/-- Model of `nltk.sent_tokenize`. -/
def sentTokenize (s : String) : List String :=
  sentSplit s.data []

/-- Punctuation split off as its own token by the word tokenizer model. -/
def isTokenPunct (c : Char) : Bool :=
  c = '.' || c = ',' || c = '!' || c = '?' || c = ';' || c = ':'

/-- Word splitter: model of `nltk.word_tokenize`.  Maximal runs of
non-whitespace characters, with sentence punctuation split off as separate
one-character tokens. -/
def wordSplit : List Char → List Char → List String
  | [], acc => if acc.isEmpty then [] else [String.mk acc.reverse]
  | c :: rest, acc =>
    if isSpace c then
      if acc.isEmpty then wordSplit rest []
      else String.mk acc.reverse :: wordSplit rest []
    else if isTokenPunct c then
      if acc.isEmpty then String.mk [c] :: wordSplit rest []
      else String.mk acc.reverse :: String.mk [c] :: wordSplit rest []
    else
      wordSplit rest (c :: acc)

/-- Model of `nltk.word_tokenize`. -/
def wordTokenize (s : String) : List String :=
  wordSplit s.data []

/-- Whitespace-only splitter: model of Python `str.split()` with no argument
(used for `topic.split()`). -/
def splitWs : List Char → List Char → List String
  | [], acc => if acc.isEmpty then [] else [String.mk acc.reverse]
  | c :: rest, acc =>
    if isSpace c then
      if acc.isEmpty then splitWs rest []
      else String.mk acc.reverse :: splitWs rest []
    else
      splitWs rest (c :: acc)

/-- Python `str.split()` with no argument. -/
def pySplit (s : String) : List String :=
  splitWs s.data []

/-- Python `str(x)` for an `Optional[int]`: `None` prints as `"None"`. -/
def pyStrOptInt : Option Int → String
  | none => "None"
  | some n => toString n

/-- Python truthiness of an `Optional[str]`: `None` and the empty string are
falsy. -/
def pyTruthy : Option String → Bool
  | none => false
  | some s => !(s == "")

/-! ### Data model (the Pydantic models of `main.py`) -/

/-- `TextInput`: request body of every analysis route. -/
structure TextInput where
  text : String
  session_id : Option String := none
  turn_number : Option Int := none
  deriving DecidableEq, Repr

/-- `EntityResult`. -/
structure EntityResult where
  text : String
  label : String
  start : Int
  «end» : Int
  confidence : ℚ
  deriving DecidableEq, Repr

/-- `TopicResult`. -/
structure TopicResult where
  topic : String
  confidence : ℚ
  keywords : List String
  deriving DecidableEq, Repr

/-- `SentimentResult`. -/
structure SentimentResult where
  compound : ℚ
  positive : ℚ
  negative : ℚ
  neutral : ℚ
  label : String
  deriving DecidableEq, Repr

/-- `AmbiguityResult`. -/
structure AmbiguityResult where
  text : String
  type : String
  confidence : ℚ
  suggestions : List String
  deriving DecidableEq, Repr

/-- `TimelineEvent`. -/
structure TimelineEvent where
  event : String
  timestamp : Option String := none
  reference : String
  confidence : ℚ
  deriving DecidableEq, Repr

/-- `NLPAnalysisResult`: the aggregate produced by `/analyze`. -/
structure NLPAnalysisResult where
  entities : List EntityResult
  topics : List TopicResult
  sentiment : SentimentResult
  ambiguities : List AmbiguityResult
  timeline_events : List TimelineEvent
  key_phrases : List String
  language : String
  readability_score : ℚ
  processing_time : ℚ
  deriving DecidableEq, Repr

/-- A raised `fastapi.HTTPException`. -/
structure HTTPException where
  status_code : Nat
  detail : String
  deriving DecidableEq, Repr

/-- Equality of handler outcomes is decidable (used to evaluate the embedded
handlers on concrete requests). -/
instance {ε α : Type} [DecidableEq ε] [DecidableEq α] : DecidableEq (Except ε α)
  | .error a, .error b =>
      if h : a = b then isTrue (h ▸ rfl)
      else isFalse (fun hc => h (Except.error.inj hc))
  | .error _, .ok _ => isFalse (fun hc => Except.noConfusion hc)
  | .ok _, .error _ => isFalse (fun hc => Except.noConfusion hc)
  | .ok a, .ok b =>
      if h : a = b then isTrue (h ▸ rfl)
      else isFalse (fun hc => h (Except.ok.inj hc))

/-- The HTTP status carried by a handler outcome, if it is an error. -/
def responseStatus {α : Type} : Except HTTPException α → Option Nat
  | .error e => some e.status_code
  | .ok _ => none

/-- One named entity as delivered by the spaCy pipeline (`doc.ents`). -/
structure SpacyEnt where
  text : String
  label : String
  start_char : Int
  end_char : Int
  deriving DecidableEq, Repr

/-- The four components of `sia.polarity_scores`. -/
structure PolarityScores where
  compound : ℚ
  pos : ℚ
  neg : ℚ
  neu : ℚ
  deriving DecidableEq, Repr

/-- External environment of one request: availability of the process-wide
capabilities, the outputs (or raising) of the external library calls on the
request text, the cache behaviour, and the wall-clock durations the stages
take.  An `Except Unit` field is `.error ()` when the library call raises. -/
structure NlpEnv where
  /-- `nlp is not None`: the spaCy model loaded at startup. -/
  nlpAvailable : Bool
  /-- `sia is not None`: the NLTK sentiment analyzer initialised at startup. -/
  siaAvailable : Bool
  /-- `redis_client is not None`: the Redis client connected at startup. -/
  redisAvailable : Bool
  /-- Outcome of running the spaCy pipeline on the request text (`doc.ents`). -/
  docEnts : Except Unit (List SpacyEnt)
  /-- `list(set(noun_phrases + entity_topics))` of `extract_topics`: the
  deduplicated candidate set, whose order is external nondeterminism. -/
  allTopics : List String
  /-- Outcome of `sia.polarity_scores(input_data.text)`. -/
  polarity : Except Unit PolarityScores
  /-- The `key_phrases` list built from noun chunks and entities in
  `extract_key_phrases` before truncation (external: noun chunks and the NLTK
  stop-word set are library data). -/
  nounChunkPhrases : List String
  /-- Whether `redis_client.setex` raises on this request. -/
  cacheWriteFails : Bool
  dEntities : ℚ
  dTopics : ℚ
  dSentiment : ℚ
  dAmbiguities : ℚ
  dTimeline : ℚ
  dKeyPhrases : ℚ
  dReadability : ℚ
  dLanguage : ℚ

/-! ### Pure analyzer cores embedded from `main.py` -/

/-- The fixed pronoun list of `detect_ambiguities` (line 212). -/
def ambiguous_pronouns : List String :=
  ["it", "this", "that", "they", "them", "he", "she", "him", "her"]

/-- The fixed quantifier list of `detect_ambiguities` (line 223). -/
def vague_quantifiers : List String :=
  ["some", "many", "few", "several", "most", "a lot of"]

/-- The fixed temporal list of `detect_ambiguities` (line 234). -/
def temporal_vague : List String :=
  ["soon", "later", "recently", "a while ago", "sometime"]

/-- Body of the `detect_ambiguities` route (lines 207-244): lowercase the text,
then run the three rule families in order, each appending one result per list
term whose word-boundary regex search succeeds. -/
def detectAmbiguitiesCore (text0 : String) : List AmbiguityResult :=
  let text := lowerString text0
  ((ambiguous_pronouns.filter (fun pronoun => reWordSearch pronoun text)).map (fun pronoun =>
      { text := pronoun, type := "ambiguous_pronoun", confidence := 0.7,
        suggestions := ["Specify what \x27" ++ pronoun ++ "\x27 refers to"] }))
  ++ ((vague_quantifiers.filter (fun quantifier => reWordSearch quantifier text)).map (fun quantifier =>
      { text := quantifier, type := "vague_quantifier", confidence := 0.6,
        suggestions := ["Specify a more precise quantity than \x27" ++ quantifier ++ "\x27"] }))
  ++ ((temporal_vague.filter (fun temporal => reWordSearch temporal text)).map (fun temporal =>
      { text := temporal, type := "temporal_ambiguity", confidence := 0.8,
        suggestions := ["Specify a more precise time than \x27" ++ temporal ++ "\x27"] }))

/-- The threshold rule of `analyze_sentiment` (lines 186-191). -/
def sentimentLabel (compound : ℚ) : String :=
  if compound ≥ 0.05 then "positive"
  else if compound ≤ -0.05 then "negative"
  else "neutral"

/-- Assembly of the `SentimentResult` from the polarity scores (lines 193-199). -/
def sentimentResultOf (scores : PolarityScores) : SentimentResult :=
  { compound := scores.compound, positive := scores.pos, negative := scores.neg,
    neutral := scores.neu, label := sentimentLabel scores.compound }

/-- The fixed keyword list of `extract_timeline_events` (line 271). -/
def temporal_keywords : List String :=
  ["yesterday", "today", "tomorrow", "next week", "last month", "ago", "later", "before", "after"]

/-- The keyword-derived part of `extract_timeline_events` (lines 270-284): for
each sentence, scan the keyword list in declaration order and, on the first
keyword contained as a substring of the lowercased sentence, emit one event and
stop scanning that sentence (the `break`). -/
def keywordEvents (text : String) : List TimelineEvent :=
  (sentTokenize text).filterMap (fun sentence =>
    match temporal_keywords.find? (fun keyword => strContains (lowerString sentence) keyword) with
    | some keyword =>
        some { event := stripStr sentence, timestamp := none,
               reference := "temporal_keyword_" ++ keyword, confidence := 0.6 }
    | none => none)

/-- The entity-derived part of `extract_timeline_events` (lines 259-268). -/
def entityTimelineEvents (ents : List SpacyEnt) : List TimelineEvent :=
  (ents.filter (fun e => e.label == "DATE" || e.label == "TIME" || e.label == "EVENT")).map
    (fun e => { event := e.text, timestamp := none, reference := e.label, confidence := 0.7 })

/-- `calculate_readability_score` (lines 363-381), with the intermediate
`let`-bindings of the source inlined.  Rational arithmetic stands for the float
arithmetic of the source. -/
def calculate_readability_score (text : String) : ℚ :=
  if stripStr text = "" then 0
  else if (sentTokenize text).length = 0 ∨ (wordTokenize text).length = 0 then 0
  else
    min 1 (max 0 (1 -
      ((((wordTokenize text).length : ℚ) / ((sentTokenize text).length : ℚ)) * 0.5
        + ((((wordTokenize text).map (fun word => (word.length : ℚ))).sum)
            / ((wordTokenize text).length : ℚ)) * 0.3) / 20))

/-- `detect_language` (lines 383-386): a documented stub. -/
def detect_language (_text : String) : String := "en"

/-! ### Route handlers -/

/-- `extract_entities` (lines 122-143). -/
def extract_entities (env : NlpEnv) (_input_data : TextInput) : Except HTTPException (List EntityResult) :=
  if env.nlpAvailable = false then .error ⟨503, "SpaCy model not available"⟩
  else
    match env.docEnts with
    | .error _ => .error ⟨500, "Entity extraction failed"⟩
    | .ok ents =>
        .ok (ents.map (fun ent =>
          { text := ent.text, label := ent.label, start := ent.start_char,
            «end» := ent.end_char, confidence := 0.8 }))

/-- `extract_topics` (lines 146-174).  The deduplicated candidate set
`list(set(...))` is the environment field `allTopics`; the loop over its first
ten items is embedded. -/
def extract_topics (env : NlpEnv) (_input_data : TextInput) : Except HTTPException (List TopicResult) :=
  if env.nlpAvailable = false then .error ⟨503, "SpaCy model not available"⟩
  else
    match env.docEnts with
    | .error _ => .error ⟨500, "Topic extraction failed"⟩
    | .ok _ =>
        .ok ((env.allTopics.take 10).map (fun topic =>
          { topic := topic, confidence := 0.7, keywords := pySplit topic }))

/-- `analyze_sentiment` (lines 177-202). -/
def analyze_sentiment (env : NlpEnv) (_input_data : TextInput) : Except HTTPException SentimentResult :=
  if env.siaAvailable = false then .error ⟨503, "NLTK sentiment analyzer not available"⟩
  else
    match env.polarity with
    | .error _ => .error ⟨500, "Sentiment analysis failed"⟩
    | .ok scores => .ok (sentimentResultOf scores)

/-- `detect_ambiguities` route (lines 205-247): its body is pure rule matching
and cannot raise, so the handler always returns the core result. -/
def detect_ambiguities (_env : NlpEnv) (input_data : TextInput) : Except HTTPException (List AmbiguityResult) :=
  .ok (detectAmbiguitiesCore input_data.text)

/-- `extract_timeline_events` route (lines 250-289): entity-derived events
first, then the keyword-derived sentence events. -/
def extract_timeline_events (env : NlpEnv) (input_data : TextInput) : Except HTTPException (List TimelineEvent) :=
  if env.nlpAvailable = false then .error ⟨503, "SpaCy model not available"⟩
  else
    match env.docEnts with
    | .error _ => .error ⟨500, "Timeline extraction failed"⟩
    | .ok ents => .ok (entityTimelineEvents ents ++ keywordEvents input_data.text)

/-- `extract_key_phrases` (lines 292-314): the collected phrase list is the
environment field `nounChunkPhrases`; the truncation to 20 is embedded. -/
def extract_key_phrases (env : NlpEnv) (_input_data : TextInput) : Except HTTPException (List String) :=
  if env.nlpAvailable = false then .error ⟨503, "SpaCy model not available"⟩
  else
    match env.docEnts with
    | .error _ => .error ⟨500, "Key phrase extraction failed"⟩
    | .ok _ => .ok (env.nounChunkPhrases.take 20)

/-! ### The aggregate `/analyze` endpoint -/

/-- The operations `analyze_text` performs, in program order: the six awaited
stage calls (lines 323-328), the `processing_time` measurement (line 331), the
readability score (line 334), the language detection (line 337), and the cache
write attempt (line 354). -/
inductive Step where
  | entities
  | topics
  | sentiment
  | ambiguities
  | timeline
  | keyPhrases
  | measureProcessingTime
  | readability
  | language
  | cacheWrite
  deriving DecidableEq, Repr

/-- The operations of a fully successful pass through `analyze_text`, in
program order: the six stage calls, then the `processing_time` measurement,
then the readability score, then the language detection. -/
def analyzeBaseTrace : List Step :=
  [.entities, .topics, .sentiment, .ambiguities, .timeline, .keyPhrases,
   .measureProcessingTime, .readability, .language]

/-- Observable outcome of one `/analyze` request: the HTTP response, the
operations executed in order, and the `setex` writes that took effect on the
cache (key, TTL seconds, stored result; `json.dumps` is modelled by storing the
result value itself). -/
structure AnalyzeOutcome where
  response : Except HTTPException NLPAnalysisResult
  trace : List Step
  cacheWrites : List (String × Nat × NLPAnalysisResult)
  deriving Repr

/-- `analyze_text` (lines 317-360).  The whole body is one `try` block: any
exception from a stage call (including an `HTTPException` raised by a 503
capability check) or from the `setex` cache write is caught by the
`except Exception` handler, which raises the generic
`HTTPException(500, "NLP analysis failed")`.  `start_time` is taken before the
stage calls and `processing_time` is computed right after the sixth stage,
before the readability score and the language detection; this is recorded by
`measureProcessingTime` preceding `readability` and `language` in the trace and
by `processing_time` summing only the six stage durations. -/
def analyze_text (env : NlpEnv) (input_data : TextInput) : AnalyzeOutcome :=
  match extract_entities env input_data with
  | .error _ => ⟨.error ⟨500, "NLP analysis failed"⟩, [.entities], []⟩
  | .ok entities =>
  match extract_topics env input_data with
  | .error _ => ⟨.error ⟨500, "NLP analysis failed"⟩, [.entities, .topics], []⟩
  | .ok topics =>
  match analyze_sentiment env input_data with
  | .error _ => ⟨.error ⟨500, "NLP analysis failed"⟩, [.entities, .topics, .sentiment], []⟩
  | .ok sentiment =>
  match detect_ambiguities env input_data with
  | .error _ => ⟨.error ⟨500, "NLP analysis failed"⟩, [.entities, .topics, .sentiment, .ambiguities], []⟩
  | .ok ambiguities =>
  match extract_timeline_events env input_data with
  | .error _ =>
      ⟨.error ⟨500, "NLP analysis failed"⟩, [.entities, .topics, .sentiment, .ambiguities, .timeline], []⟩
  | .ok timeline_events =>
  match extract_key_phrases env input_data with
  | .error _ =>
      ⟨.error ⟨500, "NLP analysis failed"⟩,
        [.entities, .topics, .sentiment, .ambiguities, .timeline, .keyPhrases], []⟩
  | .ok key_phrases =>
    let processing_time : ℚ :=
      env.dEntities + env.dTopics + env.dSentiment + env.dAmbiguities + env.dTimeline + env.dKeyPhrases
    let result : NLPAnalysisResult :=
      { entities := entities, topics := topics, sentiment := sentiment,
        ambiguities := ambiguities, timeline_events := timeline_events,
        key_phrases := key_phrases, language := detect_language input_data.text,
        readability_score := calculate_readability_score input_data.text,
        processing_time := processing_time }
    if env.redisAvailable && pyTruthy input_data.session_id then
      let cache_key :=
        "nlp_analysis:" ++ (input_data.session_id.getD "") ++ ":" ++ pyStrOptInt input_data.turn_number
      if env.cacheWriteFails then
        ⟨.error ⟨500, "NLP analysis failed"⟩, analyzeBaseTrace ++ [.cacheWrite], []⟩
      else
        ⟨.ok result, analyzeBaseTrace ++ [.cacheWrite], [(cache_key, 3600, result)]⟩
    else
      ⟨.ok result, analyzeBaseTrace, []⟩

/-! ### Helper lemmas -/

/-- `any` over a map, for maps between different types. -/
theorem any_map_general {α β : Type} (f : α → β) (p : β → Bool) :
    ∀ l : List α, (l.map f).any p = l.any (fun x => p (f x)) := by
  intro l
  induction l with
  | nil => rfl
  | cons a l ih => simp [List.any_cons, ih]

/-- Searching a filtered list for one element: the element is found exactly
when it is in the base list and survives the filter. -/
theorem any_filter_beq (g : String → Bool) (t : String) :
    ∀ l : List String, ((l.filter g).any (fun x => x == t)) = (l.any (fun x => x == t) && g t) := by
  intro l
  induction l with
  | nil => rfl
  | cons a l ih =>
    by_cases hat : a = t
    · subst hat
      cases hga : g a <;> simp [List.filter_cons, hga, List.any_cons, ih]
    · have hbeq : (a == t) = false := by
        simp [hat]
      cases hga : g a <;> simp [List.filter_cons, hga, List.any_cons, ih, hbeq]

end NlpService

namespace NlpService

/-! ### Theorems settling the claims -/

/-- C8: for every polarity score record, the derived sentiment label is
"positive" exactly when the compound score is at least 0.05, "negative"
exactly when it is at most -0.05, and "neutral" exactly in between, with the
two boundary values classified as positive and negative respectively. -/
theorem sentiment_label_threshold_rule (scores : PolarityScores) :
    ((sentimentResultOf scores).label = "positive" ↔ (0.05 : ℚ) ≤ scores.compound)
  ∧ ((sentimentResultOf scores).label = "negative" ↔ scores.compound ≤ -0.05)
  ∧ ((sentimentResultOf scores).label = "neutral" ↔
      ((-0.05 : ℚ) < scores.compound ∧ scores.compound < 0.05))
  ∧ sentimentLabel 0.05 = "positive"
  ∧ sentimentLabel (-0.05) = "negative" := by
  refine ⟨?_, ?_, ?_, by norm_num [sentimentLabel], by norm_num [sentimentLabel]⟩ <;>
    unfold sentimentResultOf sentimentLabel <;> dsimp only <;>
      split_ifs with h1 h2 <;> simp_all <;> linarith

/-- C9: the readability score always lies in [0,1]; it is exactly 0 on empty
and whitespace-only input; and whenever the stripped text, the sentence count
and the word count are nonzero it equals
clamp(1 - (0.5 * avg sentence length + 0.3 * avg word length) / 20, 0, 1). -/
theorem readability_score_bounds_and_edges (text : String) :
    (0 ≤ calculate_readability_score text ∧ calculate_readability_score text ≤ 1)
  ∧ calculate_readability_score "" = 0
  ∧ calculate_readability_score "   " = 0
  ∧ (stripStr text ≠ "" → (sentTokenize text).length ≠ 0 → (wordTokenize text).length ≠ 0 →
      calculate_readability_score text =
        min 1 (max 0 (1 -
          (0.5 * (((wordTokenize text).length : ℚ) / ((sentTokenize text).length : ℚ))
            + 0.3 * ((((wordTokenize text).map (fun word => (word.length : ℚ))).sum)
                / ((wordTokenize text).length : ℚ))) / 20))) := by
  refine ⟨?_, by with_unfolding_all decide, by with_unfolding_all decide, ?_⟩
  · unfold calculate_readability_score
    split_ifs
    · norm_num
    · norm_num
    · exact ⟨le_min (by norm_num) (le_max_left 0 _), min_le_left 1 _⟩
  · intro h1 h2 h3
    unfold calculate_readability_score
    rw [if_neg h1, if_neg (not_or.mpr ⟨h2, h3⟩)]
    congr 1
    congr 1
    ring

/-- Witness for C9 at the concrete input "Hi.": one sentence, two word tokens,
score = clamp(1 - (0.5 * 2 + 0.3 * 3/2) / 20, 0, 1). -/
theorem readability_score_bounds_and_edges_witness :
    stripStr "Hi." ≠ "" ∧ (sentTokenize "Hi.").length ≠ 0 ∧ (wordTokenize "Hi.").length ≠ 0 ∧
    calculate_readability_score "Hi." =
      min 1 (max 0 (1 -
        (0.5 * (((wordTokenize "Hi.").length : ℚ) / ((sentTokenize "Hi.").length : ℚ))
          + 0.3 * ((((wordTokenize "Hi.").map (fun word => (word.length : ℚ))).sum)
              / ((wordTokenize "Hi.").length : ℚ))) / 20)) :=
  ⟨by decide, by decide, by decide,
    (readability_score_bounds_and_edges "Hi.").2.2.2 (by decide) (by decide) (by decide)⟩

/-- C10: the timeline keyword scan is a plain substring test, not a whole-word
match: the sentence "The agony continued." contains no temporal expression
(the word-boundary search for "ago" fails on it), yet a keyword-derived event
with reference temporal_keyword_ago is emitted because "ago" occurs inside
"agony". -/
theorem timeline_keyword_substring_match :
    keywordEvents "The agony continued." =
      [{ event := "The agony continued.", timestamp := none,
         reference := "temporal_keyword_ago", confidence := 0.6 }]
  ∧ reWordSearch "ago" (lowerString "The agony continued.") = false := by
  with_unfolding_all decide

/-- C6 counterexample: on the spec scenario input the keyword scan emits
exactly one keyword-derived event (referencing temporal_keyword_yesterday),
not two, because the text is a single sentence and the scan stops at the first
matching keyword. -/
theorem timeline_scenario_two_events_cex :
    ((keywordEvents "We met yesterday and I think we\x27ll meet again next week.").map
        (fun e => e.reference) = ["temporal_keyword_yesterday"])
  ∧ (keywordEvents "We met yesterday and I think we\x27ll meet again next week.").length ≠ 2 := by
  with_unfolding_all decide

/-- C6 amended: the scenario input is tokenized as one sentence and yields
exactly one keyword-derived TimelineEvent, whose reference is
temporal_keyword_yesterday ("yesterday" precedes "next week" in the keyword
list and the scan of a sentence stops at the first hit); in general each
sentence contributes at most one keyword-derived event. -/
theorem timeline_scenario_first_keyword_wins :
    keywordEvents "We met yesterday and I think we\x27ll meet again next week." =
      [{ event := "We met yesterday and I think we\x27ll meet again next week.",
         timestamp := none, reference := "temporal_keyword_yesterday", confidence := 0.6 }]
  ∧ ∀ text : String, (keywordEvents text).length ≤ (sentTokenize text).length := by
  constructor
  · with_unfolding_all decide
  · intro text
    exact List.length_filterMap_le _ _

/-- C7: the ambiguity detector emits at most one result per fixed-list term
regardless of how many times it occurs; the (term, type, confidence) triples
of its output form an in-order selection from the pronoun list (type
ambiguous_pronoun, confidence 0.7), then the quantifier list (vague_quantifier,
0.6), then the temporal list (temporal_ambiguity, 0.8); and a fixed-list term
produces a result exactly when its case-insensitive word-boundary search over
the lowercased text succeeds. -/
theorem ambiguity_rule_engine (input_text : String) :
    (∀ term : String,
        ((detectAmbiguitiesCore input_text).filter (fun r => r.text == term)).length ≤ 1)
  ∧ List.Sublist
      ((detectAmbiguitiesCore input_text).map (fun r => (r.text, r.type, r.confidence)))
      ((ambiguous_pronouns.map (fun p => (p, "ambiguous_pronoun", (0.7 : ℚ))))
        ++ (vague_quantifiers.map (fun q => (q, "vague_quantifier", (0.6 : ℚ))))
        ++ (temporal_vague.map (fun t => (t, "temporal_ambiguity", (0.8 : ℚ)))))
  ∧ (∀ term ∈ ambiguous_pronouns ++ vague_quantifiers ++ temporal_vague,
        ((detectAmbiguitiesCore input_text).any (fun r => r.text == term))
          = reWordSearch term (lowerString input_text)) := by
  have djPQ : ∀ x ∈ ambiguous_pronouns, x ∉ vague_quantifiers := by decide
  have djPT : ∀ x ∈ ambiguous_pronouns, x ∉ temporal_vague := by decide
  have djQT : ∀ x ∈ vague_quantifiers, x ∉ temporal_vague := by decide
  have hanyOf : ∀ (l : List String) (term : String), term ∈ l →
      l.any (fun x => x == term) = true :=
    fun l term h => List.any_eq_true.mpr ⟨term, h, by simp⟩
  have hanyNot : ∀ (l : List String) (term : String), term ∉ l →
      l.any (fun x => x == term) = false := by
    intro l term h
    rw [Bool.eq_false_iff]
    intro hc
    rcases List.any_eq_true.mp hc with ⟨x, hx, hxe⟩
    have hxt : x = term := by simpa using hxe
    exact h (hxt ▸ hx)
  have htext : List.Sublist ((detectAmbiguitiesCore input_text).map (fun r => r.text))
      (ambiguous_pronouns ++ vague_quantifiers ++ temporal_vague) := by
    simp only [detectAmbiguitiesCore, List.map_append, List.map_map]
    refine List.Sublist.append (List.Sublist.append ?_ ?_) ?_ <;>
      exact (List.filter_sublist _).map _
  have hnodup : ((detectAmbiguitiesCore input_text).map (fun r => r.text)).Nodup :=
    List.Nodup.sublist htext (by decide)
  refine ⟨?_, ?_, ?_⟩
  · intro term
    have hcount :
        ((detectAmbiguitiesCore input_text).filter (fun r => r.text == term)).length
          = List.count term ((detectAmbiguitiesCore input_text).map (fun r => r.text)) := by
      rw [← List.countP_eq_length_filter, List.count, List.countP_map]
      rfl
    rw [hcount]
    exact List.nodup_iff_count_le_one.mp hnodup term
  · simp only [detectAmbiguitiesCore, List.map_append, List.map_map]
    refine List.Sublist.append (List.Sublist.append ?_ ?_) ?_ <;>
      exact (List.filter_sublist _).map _
  · intro term hterm
    simp only [detectAmbiguitiesCore, List.any_append, any_map_general, any_filter_beq]
    rcases List.mem_append.mp hterm with h | h
    · rcases List.mem_append.mp h with hp | hq
      · simp [hanyOf _ _ hp, hanyNot _ _ (djPQ term hp), hanyNot _ _ (djPT term hp)]
      · simp [hanyOf _ _ hq, hanyNot _ _ (fun hx => djPQ term hx hq),
          hanyNot _ _ (djQT term hq)]
    · simp [hanyOf _ _ h, hanyNot _ _ (fun hx => djPT term hx h),
        hanyNot _ _ (fun hx => djQT term hx h)]

/-- Witness for C7 at the spec ambiguity scenario input: at most one result
for "it", and "soon" is emitted exactly as its word-boundary search says. -/
theorem ambiguity_rule_engine_witness :
    ((detectAmbiguitiesCore "It was great, I think we\x27ll go there soon").filter
        (fun r => r.text == "it")).length ≤ 1
  ∧ ((detectAmbiguitiesCore "It was great, I think we\x27ll go there soon").any
        (fun r => r.text == "soon"))
      = reWordSearch "soon" (lowerString "It was great, I think we\x27ll go there soon") :=
  ⟨(ambiguity_rule_engine "It was great, I think we\x27ll go there soon").1 "it",
   (ambiguity_rule_engine "It was great, I think we\x27ll go there soon").2.2 "soon"
     (by decide)⟩

/-! ### The success shape of `analyze_text`, and concrete request environments -/

/-- When all six stage calls succeed, `analyze_text` reaches the assembly and
caching tail of the handler; this lemma names that tail once for the claims
about it. -/
theorem analyze_text_success (env : NlpEnv) (input_data : TextInput)
    (entities : List EntityResult) (topics : List TopicResult) (sentiment : SentimentResult)
    (ambiguities : List AmbiguityResult) (timeline_events : List TimelineEvent)
    (key_phrases : List String)
    (h1 : extract_entities env input_data = .ok entities)
    (h2 : extract_topics env input_data = .ok topics)
    (h3 : analyze_sentiment env input_data = .ok sentiment)
    (h4 : detect_ambiguities env input_data = .ok ambiguities)
    (h5 : extract_timeline_events env input_data = .ok timeline_events)
    (h6 : extract_key_phrases env input_data = .ok key_phrases) :
    analyze_text env input_data =
      (if env.redisAvailable && pyTruthy input_data.session_id then
        if env.cacheWriteFails then
          ⟨.error ⟨500, "NLP analysis failed"⟩, analyzeBaseTrace ++ [.cacheWrite], []⟩
        else
          ⟨.ok { entities := entities, topics := topics, sentiment := sentiment,
                 ambiguities := ambiguities, timeline_events := timeline_events,
                 key_phrases := key_phrases, language := detect_language input_data.text,
                 readability_score := calculate_readability_score input_data.text,
                 processing_time := env.dEntities + env.dTopics + env.dSentiment
                   + env.dAmbiguities + env.dTimeline + env.dKeyPhrases },
            analyzeBaseTrace ++ [.cacheWrite],
            [("nlp_analysis:" ++ (input_data.session_id.getD "") ++ ":"
                ++ pyStrOptInt input_data.turn_number, 3600,
              { entities := entities, topics := topics, sentiment := sentiment,
                ambiguities := ambiguities, timeline_events := timeline_events,
                key_phrases := key_phrases, language := detect_language input_data.text,
                readability_score := calculate_readability_score input_data.text,
                processing_time := env.dEntities + env.dTopics + env.dSentiment
                  + env.dAmbiguities + env.dTimeline + env.dKeyPhrases })]⟩
      else
        ⟨.ok { entities := entities, topics := topics, sentiment := sentiment,
               ambiguities := ambiguities, timeline_events := timeline_events,
               key_phrases := key_phrases, language := detect_language input_data.text,
               readability_score := calculate_readability_score input_data.text,
               processing_time := env.dEntities + env.dTopics + env.dSentiment
                 + env.dAmbiguities + env.dTimeline + env.dKeyPhrases },
          analyzeBaseTrace, []⟩) := by
  unfold analyze_text
  rw [h1, h2, h3, h4, h5, h6]

/-- A request environment in which everything is available and every external
call succeeds with the simplest outputs; the six stages take one time unit
each and the two post-measurement computations five units each. -/
def okEnv : NlpEnv :=
  { nlpAvailable := true, siaAvailable := true, redisAvailable := true,
    docEnts := .ok [], allTopics := [], polarity := .ok ⟨0, 0, 0, 0⟩,
    nounChunkPhrases := [], cacheWriteFails := false,
    dEntities := 1, dTopics := 1, dSentiment := 1, dAmbiguities := 1,
    dTimeline := 1, dKeyPhrases := 1, dReadability := 5, dLanguage := 5 }

/-- A request with empty text, session id "s1" and no turn number. -/
def sessionInput : TextInput :=
  { text := "", session_id := some "s1", turn_number := none }

/-- The aggregate result `analyze_text okEnv sessionInput` assembles. -/
def okAggResult : NLPAnalysisResult :=
  { entities := [], topics := [], sentiment := sentimentResultOf ⟨0, 0, 0, 0⟩,
    ambiguities := [], timeline_events := [], key_phrases := [],
    language := "en", readability_score := 0, processing_time := 6 }

/-- C5: if any analyzer stage of `/analyze` fails (a capability check raising
503 or the stage body raising), the endpoint returns the single generic
500 "NLP analysis failed" response, no partial NLPAnalysisResult is returned,
and no cache write occurs. -/
theorem analyzer_failure_aborts_aggregate (env : NlpEnv) (input_data : TextInput)
    (h : (extract_entities env input_data).isOk = false
       ∨ (extract_topics env input_data).isOk = false
       ∨ (analyze_sentiment env input_data).isOk = false
       ∨ (detect_ambiguities env input_data).isOk = false
       ∨ (extract_timeline_events env input_data).isOk = false
       ∨ (extract_key_phrases env input_data).isOk = false) :
    (analyze_text env input_data).response = .error ⟨500, "NLP analysis failed"⟩
    ∧ (analyze_text env input_data).cacheWrites = [] := by
  unfold analyze_text
  cases e1 : extract_entities env input_data with
  | error e => exact ⟨rfl, rfl⟩
  | ok v1 =>
  cases e2 : extract_topics env input_data with
  | error e => exact ⟨rfl, rfl⟩
  | ok v2 =>
  cases e3 : analyze_sentiment env input_data with
  | error e => exact ⟨rfl, rfl⟩
  | ok v3 =>
  cases e4 : detect_ambiguities env input_data with
  | error e => exact ⟨rfl, rfl⟩
  | ok v4 =>
  cases e5 : extract_timeline_events env input_data with
  | error e => exact ⟨rfl, rfl⟩
  | ok v5 =>
  cases e6 : extract_key_phrases env input_data with
  | error e => exact ⟨rfl, rfl⟩
  | ok v6 =>
    rw [e1, e2, e3, e4, e5, e6] at h
    simp [Except.isOk, Except.toBool] at h

/-- Witness for C5: with the spaCy pipeline raising, `/analyze` on a session
request returns the generic failure and writes nothing to the cache. -/
theorem analyzer_failure_aborts_aggregate_witness :
    (extract_entities { okEnv with docEnts := .error () } sessionInput).isOk = false
  ∧ ((analyze_text { okEnv with docEnts := .error () } sessionInput).response
        = .error ⟨500, "NLP analysis failed"⟩
    ∧ (analyze_text { okEnv with docEnts := .error () } sessionInput).cacheWrites = []) :=
  ⟨by with_unfolding_all decide,
   analyzer_failure_aborts_aggregate _ _ (Or.inl (by with_unfolding_all decide))⟩

/-- C1 counterexample: all stages succeed, the cache client is present, a
session id is given, and the `setex` call raises; the request does not
succeed — it returns the generic 500 failure and the assembled result is not
returned (and nothing is written). -/
theorem cache_write_failure_swallowed_cex :
    (analyze_text { okEnv with cacheWriteFails := true } sessionInput).response
      = .error ⟨500, "NLP analysis failed"⟩
  ∧ (analyze_text { okEnv with cacheWriteFails := true } sessionInput).cacheWrites = [] := by
  with_unfolding_all decide

/-- C1 amended: a failing cache write is caught by the generic
`except Exception` handler of `analyze_text`: the request fails with the
single generic 500 response, the assembled NLPAnalysisResult is not returned,
and the cache is left unchanged. -/
theorem cache_write_failure_aborts_request (env : NlpEnv) (input_data : TextInput)
    (entities : List EntityResult) (topics : List TopicResult) (sentiment : SentimentResult)
    (ambiguities : List AmbiguityResult) (timeline_events : List TimelineEvent)
    (key_phrases : List String)
    (h1 : extract_entities env input_data = .ok entities)
    (h2 : extract_topics env input_data = .ok topics)
    (h3 : analyze_sentiment env input_data = .ok sentiment)
    (h4 : detect_ambiguities env input_data = .ok ambiguities)
    (h5 : extract_timeline_events env input_data = .ok timeline_events)
    (h6 : extract_key_phrases env input_data = .ok key_phrases)
    (hr : env.redisAvailable = true)
    (hs : pyTruthy input_data.session_id = true)
    (hw : env.cacheWriteFails = true) :
    (analyze_text env input_data).response = .error ⟨500, "NLP analysis failed"⟩
    ∧ (analyze_text env input_data).cacheWrites = [] := by
  rw [analyze_text_success env input_data entities topics sentiment ambiguities
    timeline_events key_phrases h1 h2 h3 h4 h5 h6]
  simp [hr, hs, hw]

/-- Witness for C1 at the concrete failing-cache environment. -/
theorem cache_write_failure_aborts_request_witness :
    extract_entities { okEnv with cacheWriteFails := true } sessionInput = .ok []
  ∧ pyTruthy sessionInput.session_id = true
  ∧ ((analyze_text { okEnv with cacheWriteFails := true } sessionInput).response
        = .error ⟨500, "NLP analysis failed"⟩
    ∧ (analyze_text { okEnv with cacheWriteFails := true } sessionInput).cacheWrites = []) :=
  ⟨by with_unfolding_all decide, by with_unfolding_all decide,
   cache_write_failure_aborts_request _ sessionInput [] [] (sentimentResultOf ⟨0, 0, 0, 0⟩)
     [] [] []
     (by with_unfolding_all decide) (by with_unfolding_all decide)
     (by with_unfolding_all decide) (by with_unfolding_all decide)
     (by with_unfolding_all decide) (by with_unfolding_all decide)
     (by with_unfolding_all decide) (by with_unfolding_all decide)
     (by with_unfolding_all decide)⟩

/-- C2 counterexample: with session id "s1" and no turn number, the cache key
written is nlp_analysis:s1:None — the Python string of None — and not
nlp_analysis:s1:1. -/
theorem cache_key_turn_default_cex :
    (analyze_text okEnv sessionInput).cacheWrites.map (fun w => w.1)
      = ["nlp_analysis:s1:None"]
  ∧ (analyze_text okEnv sessionInput).cacheWrites.map (fun w => w.1)
      ≠ ["nlp_analysis:s1:1"] := by
  with_unfolding_all decide

/-- C2 amended: when the request succeeds with a cache client, a non-empty
session id and no turn number, the absent turn number is interpolated as the
Python string "None": the result is stored under nlp_analysis:<sid>:None
(there is no defaulting to 1). -/
theorem cache_key_uses_literal_none (env : NlpEnv) (input_data : TextInput) (sid : String)
    (entities : List EntityResult) (topics : List TopicResult) (sentiment : SentimentResult)
    (ambiguities : List AmbiguityResult) (timeline_events : List TimelineEvent)
    (key_phrases : List String)
    (h1 : extract_entities env input_data = .ok entities)
    (h2 : extract_topics env input_data = .ok topics)
    (h3 : analyze_sentiment env input_data = .ok sentiment)
    (h4 : detect_ambiguities env input_data = .ok ambiguities)
    (h5 : extract_timeline_events env input_data = .ok timeline_events)
    (h6 : extract_key_phrases env input_data = .ok key_phrases)
    (hr : env.redisAvailable = true)
    (hs : input_data.session_id = some sid)
    (hsid : (sid == "") = false)
    (ht : input_data.turn_number = none)
    (hw : env.cacheWriteFails = false) :
    (analyze_text env input_data).cacheWrites.map (fun w => w.1)
      = ["nlp_analysis:" ++ sid ++ ":" ++ "None"] := by
  rw [analyze_text_success env input_data entities topics sentiment ambiguities
    timeline_events key_phrases h1 h2 h3 h4 h5 h6]
  simp [hr, hs, hw, ht, pyTruthy, hsid, pyStrOptInt]

/-- Witness for C2 at the concrete all-available environment. -/
theorem cache_key_uses_literal_none_witness :
    sessionInput.session_id = some "s1"
  ∧ sessionInput.turn_number = none
  ∧ (analyze_text okEnv sessionInput).cacheWrites.map (fun w => w.1)
      = ["nlp_analysis:" ++ "s1" ++ ":" ++ "None"] :=
  ⟨rfl, rfl,
   cache_key_uses_literal_none okEnv sessionInput "s1" [] [] (sentimentResultOf ⟨0, 0, 0, 0⟩)
     [] [] []
     (by with_unfolding_all decide) (by with_unfolding_all decide)
     (by with_unfolding_all decide) (by with_unfolding_all decide)
     (by with_unfolding_all decide) (by with_unfolding_all decide)
     rfl rfl (by decide) rfl rfl⟩

/-- C3 counterexample: with the spaCy capability unavailable, `/analyze`
responds with the generic 500 processing failure, not a 503
service-unavailable response. -/
theorem analyze_wraps_unavailable_cex :
    responseStatus (analyze_text { okEnv with nlpAvailable := false } sessionInput).response
      = some 500
  ∧ responseStatus (analyze_text { okEnv with nlpAvailable := false } sessionInput).response
      ≠ some 503 := by
  with_unfolding_all decide

/-- C3 amended: each individual capability route answers 503 when its
capability failed to initialize, but the combined `/analyze` catches that
exception and converts it to the generic 500 processing failure. -/
theorem capability_unavailable_responses (env : NlpEnv) (input_data : TextInput) :
    (env.nlpAvailable = false →
        responseStatus (extract_entities env input_data) = some 503
      ∧ responseStatus (extract_topics env input_data) = some 503
      ∧ responseStatus (extract_timeline_events env input_data) = some 503
      ∧ responseStatus (extract_key_phrases env input_data) = some 503)
  ∧ (env.siaAvailable = false → responseStatus (analyze_sentiment env input_data) = some 503)
  ∧ ((env.nlpAvailable = false ∨ env.siaAvailable = false) →
      responseStatus (analyze_text env input_data).response = some 500) := by
  refine ⟨?_, ?_, ?_⟩
  · intro h
    refine ⟨?_, ?_, ?_, ?_⟩ <;>
      simp [extract_entities, extract_topics, extract_timeline_events,
        extract_key_phrases, h, responseStatus]
  · intro h
    simp [analyze_sentiment, h, responseStatus]
  · intro h
    rcases h with h | h
    · have he : extract_entities env input_data = .error ⟨503, "SpaCy model not available"⟩ := by
        simp [extract_entities, h]
      unfold analyze_text
      rw [he]
      rfl
    · cases e1 : extract_entities env input_data with
      | error e => unfold analyze_text; rw [e1]; rfl
      | ok v1 =>
        cases e2 : extract_topics env input_data with
        | error e => unfold analyze_text; rw [e1, e2]; rfl
        | ok v2 =>
          have he : analyze_sentiment env input_data
              = .error ⟨503, "NLTK sentiment analyzer not available"⟩ := by
            simp [analyze_sentiment, h]
          unfold analyze_text
          rw [e1, e2, he]
          rfl

/-- Witness for C3 at a concrete environment without the spaCy capability. -/
theorem capability_unavailable_responses_witness :
    ({ okEnv with nlpAvailable := false } : NlpEnv).nlpAvailable = false
  ∧ responseStatus (extract_entities { okEnv with nlpAvailable := false } sessionInput) = some 503
  ∧ responseStatus (analyze_text { okEnv with nlpAvailable := false } sessionInput).response
      = some 500 :=
  ⟨rfl,
   ((capability_unavailable_responses { okEnv with nlpAvailable := false } sessionInput).1 rfl).1,
   (capability_unavailable_responses { okEnv with nlpAvailable := false } sessionInput).2.2
     (Or.inl rfl)⟩

/-- C4 counterexample: on a successful request the `processing_time`
measurement happens strictly before the readability and language steps (the
trace places measureProcessingTime at index 6, readability at 7 and language
at 8), and the reported processing_time is the sum 6 of the six stage
durations, excluding the readability duration 5 and the language duration 5. -/
theorem processing_time_cex :
    (analyze_text okEnv sessionInput).trace
      = [Step.entities, Step.topics, Step.sentiment, Step.ambiguities, Step.timeline,
         Step.keyPhrases, Step.measureProcessingTime, Step.readability, Step.language,
         Step.cacheWrite]
  ∧ (analyze_text okEnv sessionInput).trace.indexOf Step.measureProcessingTime
      < (analyze_text okEnv sessionInput).trace.indexOf Step.readability
  ∧ (analyze_text okEnv sessionInput).response = .ok okAggResult
  ∧ okAggResult.processing_time = 6
  ∧ okEnv.dReadability = 5 ∧ okEnv.dLanguage = 5 := by
  with_unfolding_all decide

/-- C4 amended: on every successful `/analyze` request the first nine recorded
operations are the six stage calls, then the end of the processing-time
measurement, then the readability computation, then the language detection;
the reported processing_time is the sum of the six stage durations only. -/
theorem processing_time_covers_six_stages (env : NlpEnv) (input_data : TextInput)
    (r : NLPAnalysisResult)
    (entities : List EntityResult) (topics : List TopicResult) (sentiment : SentimentResult)
    (ambiguities : List AmbiguityResult) (timeline_events : List TimelineEvent)
    (key_phrases : List String)
    (h1 : extract_entities env input_data = .ok entities)
    (h2 : extract_topics env input_data = .ok topics)
    (h3 : analyze_sentiment env input_data = .ok sentiment)
    (h4 : detect_ambiguities env input_data = .ok ambiguities)
    (h5 : extract_timeline_events env input_data = .ok timeline_events)
    (h6 : extract_key_phrases env input_data = .ok key_phrases)
    (hok : (analyze_text env input_data).response = .ok r) :
    (analyze_text env input_data).trace.take 9 = analyzeBaseTrace
    ∧ r.processing_time = env.dEntities + env.dTopics + env.dSentiment
        + env.dAmbiguities + env.dTimeline + env.dKeyPhrases := by
  rw [analyze_text_success env input_data entities topics sentiment ambiguities
    timeline_events key_phrases h1 h2 h3 h4 h5 h6] at hok ⊢
  by_cases hc : (env.redisAvailable && pyTruthy input_data.session_id) = true
  · rw [if_pos hc] at hok ⊢
    by_cases hw : env.cacheWriteFails = true
    · rw [if_pos hw] at hok
      exact absurd hok (by simp)
    · rw [if_neg hw] at hok ⊢
      injection hok with hr
      refine ⟨by dsimp only; decide, ?_⟩
      rw [← hr]
  · rw [if_neg hc] at hok ⊢
    injection hok with hr
    refine ⟨by dsimp only; decide, ?_⟩
    rw [← hr]

/-- Witness for C4 at the concrete all-available environment. -/
theorem processing_time_covers_six_stages_witness :
    (analyze_text okEnv sessionInput).response = .ok okAggResult
  ∧ ((analyze_text okEnv sessionInput).trace.take 9 = analyzeBaseTrace
    ∧ okAggResult.processing_time = okEnv.dEntities + okEnv.dTopics + okEnv.dSentiment
        + okEnv.dAmbiguities + okEnv.dTimeline + okEnv.dKeyPhrases) :=
  ⟨by with_unfolding_all decide,
   processing_time_covers_six_stages okEnv sessionInput okAggResult [] []
     (sentimentResultOf ⟨0, 0, 0, 0⟩) [] [] []
     (by with_unfolding_all decide) (by with_unfolding_all decide)
     (by with_unfolding_all decide) (by with_unfolding_all decide)
     (by with_unfolding_all decide) (by with_unfolding_all decide)
     (by with_unfolding_all decide)⟩

end NlpService
